import Mathlib

/-!
Verification of the engine-assembly pipeline of `src/colossalai/initialize.py`
(the `initialize` function, lines 220-378) against its specification.

The configuration sub-sections (`fp16`, `zero`) are Python dictionaries that the
code copies and then mutates (`cfg_ = fp16_cfg.copy(); cfg_.pop('mode')`), so we
model them as dictionaries behind references in a small heap: mutation on a
copied reference leaves the original dictionary observable, exactly as in the
source.  Collaborators that live outside the given sources
(`convert_to_amp`, `convert_to_zero`, `build_gradient_handler`,
`accumulate_gradient`, `sync_model_param_in_dp`, `is_using_ddp`, `is_using_pp`)
are modelled from the spec and carry a doc comment saying so.
-/

namespace ColossalAI

/-- Mixed-precision mode tags (`colossalai.amp.AMP_TYPE`). -/
inductive AMP_TYPE where
  | APEX
  | TORCH
  | NAIVE
deriving DecidableEq, Repr

/-- A Python scalar value stored in a configuration dictionary:
`None`, an `AMP_TYPE` member, an integer, or a string. -/
inductive PyVal where
  | pyNone
  | amp (m : AMP_TYPE)
  | nat (n : Nat)
  | str (s : String)
deriving DecidableEq, Repr

/-- A configuration sub-section: an insertion-ordered string-keyed dictionary. -/
abbrev Dict := List (String × PyVal)

/-- Dictionary key lookup (first matching entry). -/
def dictGet (d : Dict) (k : String) : Option PyVal :=
  match d.find? (fun p => p.1 == k) with
  | some p => some p.2
  | none => none

/-- Remove every entry under a key. -/
def dictRemove (d : Dict) (k : String) : Dict :=
  d.filter (fun p => p.1 != k)

/-- A store of configuration dictionaries addressed by references, modelling
Python object identity for the mutable sub-sections of the configuration. -/
structure Heap where
  dicts : List (Nat × Dict)
  next : Nat
deriving DecidableEq, Repr

/-- Look a reference up in a dictionary store (first matching entry). -/
def dictsGet : List (Nat × Dict) → Nat → Dict
  | [], _ => []
  | p :: rest, r => if p.1 = r then p.2 else dictsGet rest r

/-- Dereference: the dictionary behind a reference (first matching entry). -/
def Heap.get (h : Heap) (r : Nat) : Dict :=
  dictsGet h.dicts r

/-- Overwrite the dictionary behind a reference (prepend, shadowing). -/
def Heap.set (h : Heap) (r : Nat) (d : Dict) : Heap :=
  { h with dicts := (r, d) :: h.dicts }

/-- Python `dict.copy()`: allocate a fresh dictionary with the same entries,
returning the fresh reference and the grown heap. -/
def Heap.copy (h : Heap) (r : Nat) : Nat × Heap :=
  (h.next, { dicts := (h.next, Heap.get h r) :: h.dicts, next := h.next + 1 })

/-- In-place `dict.pop(k)` on the dictionary behind reference `r`: returns the
value previously under the key and mutates the dictionary. -/
def Heap.popKey (h : Heap) (r : Nat) (k : String) : Option PyVal × Heap :=
  (dictGet (Heap.get h r) k, Heap.set h r (dictRemove (Heap.get h r) k))

/-- The value found under the top-level `gradient_handler` key: absent, a list
of handler specifications (each given by its `type` tag), or present but not a
list. -/
inductive GradHandlerCfg where
  | absent
  | specs (l : List String)
  | notAList
deriving DecidableEq, Repr

/-- The top-level configuration (`gpc.config`): the recognized keys read by the
engine assembler; absent optional keys are `none`.  The `fp16` and `zero`
sub-sections are heap references to their dictionaries. -/
structure Config where
  fp16 : Option Nat
  zero : Option Nat
  gradient_handler : GradHandlerCfg
  gradient_accumulation : Option Nat
  clip_grad_norm : Option ℚ
deriving DecidableEq, Repr

/-- The process-wide topology context: the fields the engine assembler reads. -/
structure GPC where
  config : Config
  data_parallel_size : Nat
  pipeline_parallel_size : Nat
deriving DecidableEq, Repr

/-- Modelled from the spec: `is_using_ddp` lives in `colossalai.utils`, outside
the given sources.  Data-parallel is active when the data-parallel group has
more than one rank; spec section 4.4 (auto-detection step c applies "including
when pipeline is also active") and the dispatch comment inside `initialize`
("if using pipeline and dp size larger than 1, use data parallel grad handler")
treat data-parallel activity independently of the pipeline size. -/
def is_using_ddp (g : GPC) : Bool :=
  g.data_parallel_size > 1

/-- Modelled from the spec: `is_using_pp` lives in `colossalai.utils`, outside
the given sources: true iff the pipeline size is larger than one. -/
def is_using_pp (g : GPC) : Bool :=
  g.pipeline_parallel_size > 1

/-- Parallel-mode tags used for process groups. -/
inductive ParallelMode where
  | GLOBAL
  | DATA
  | TENSOR
  | PIPELINE
deriving DecidableEq, Repr

/-- A model value, tracking the wrappers the pipeline may apply. -/
inductive Model where
  | base (id : Nat)
  | amp (m : Model) (mode : PyVal)
  | zero (m : Model) (level : Nat)
  | ddp (m : Model) (group : ParallelMode)
deriving DecidableEq, Repr

/-- An optimizer value, tracking the wrappers the pipeline may apply. -/
inductive Optimizer where
  | base (id : Nat)
  | amp (o : Optimizer) (mode : PyVal)
  | zero2 (o : Optimizer)
  | zero3 (o : Optimizer)
  | colossalai (o : Optimizer)
  | gradAccum (o : Optimizer) (size : Nat)
deriving DecidableEq, Repr

/-- A criterion value, tracking the wrappers the pipeline may apply. -/
inductive Criterion where
  | base (id : Nat)
  | amp (c : Criterion) (mode : PyVal)
deriving DecidableEq, Repr

/-- A dataloader, possibly wrapped for gradient accumulation. -/
inductive DataLoader where
  | base (id : Nat)
  | gradAccum (d : DataLoader) (size : Nat)
deriving DecidableEq, Repr

/-- A learning-rate scheduler, possibly wrapped for gradient accumulation. -/
inductive LRScheduler where
  | base (id : Nat)
  | gradAccum (s : LRScheduler) (size : Nat)
deriving DecidableEq, Repr

/-- A gradient-handler object, identified by the `type` tag it was built from,
possibly wrapped for gradient accumulation. -/
inductive GradientHandler where
  | built (htype : String)
  | gradAccum (h : GradientHandler) (size : Nat)
deriving DecidableEq, Repr

/-- `isinstance(optimizer, (ZeroRedundancyOptimizer_Level_2,
ZeroRedundancyOptimizer_Level_3))`: the optimizer self-identifies as a
sharded-optimizer-state optimizer. -/
def isZeroOptimizer : Optimizer → Bool
  | .zero2 _ => true
  | .zero3 _ => true
  | _ => false

/-- `isinstance(optimizer, ColossalaiOptimizer)` for the generic-wrapper
idempotence check. -/
def isColossalaiOptimizer : Optimizer → Bool
  | .colossalai _ => true
  | _ => false

/-- Modelled from the spec: `convert_to_amp` (`colossalai.amp`) is outside the
given sources; per spec section 4.3 it returns a new model/optimizer/criterion
triple wrapped for mixed-precision execution under the given mode. -/
def convert_to_amp (model : Model) (optimizer : Optimizer) (criterion : Criterion)
    (mode : PyVal) (_amp_config : Dict) : Model × Optimizer × Criterion :=
  (Model.amp model mode, Optimizer.amp optimizer mode, Criterion.amp criterion mode)

/-- Modelled from the spec: `convert_to_zero` (`colossalai.zero`) is outside the
given sources; per spec section 4.3 it takes an integer level (2 or 3) and
returns a new (model, optimizer) pair whose optimizer self-identifies its
level.  Levels other than 2 and 3 are not given a meaning by the spec. -/
def convert_to_zero (model : Model) (optimizer : Optimizer) (level : Nat)
    (_zero_config : Dict) : Model × Optimizer :=
  (Model.zero model level,
   if level == 3 then Optimizer.zero3 optimizer else Optimizer.zero2 optimizer)

/-- Modelled from the spec: `build_gradient_handler` (`colossalai.builder`) is
outside the given sources; it builds one handler object of the named type,
bound to the given model and optimizer. -/
def build_gradient_handler (cfg : String) (_model : Model) (_optimizer : Optimizer) :
    GradientHandler :=
  GradientHandler.built cfg

/-- Modelled from the spec: `accumulate_gradient` (`colossalai.utils`) is
outside the given sources; per spec section 4.5 it wraps the optimizer, the
dataloader, each gradient handler and the scheduler into accumulation-aware
variants for the given accumulation size. -/
def accumulate_gradient (_model : Model) (optimizer : Optimizer)
    (dataloader : Option DataLoader) (accumulate_size : Nat)
    (gradient_handlers : Option (List GradientHandler))
    (lr_scheduler : Option LRScheduler) :
    Optimizer × Option DataLoader × Option (List GradientHandler) × Option LRScheduler :=
  (Optimizer.gradAccum optimizer accumulate_size,
   dataloader.map (DataLoader.gradAccum · accumulate_size),
   gradient_handlers.map (fun hs => hs.map (GradientHandler.gradAccum · accumulate_size)),
   lr_scheduler.map (LRScheduler.gradAccum · accumulate_size))

/-- The execution engine assembled at the end (`colossalai.engine.Engine`;
modelled from the spec: it owns the model, optimizer, criterion, gradient
handlers and the clip-norm threshold it is constructed with). -/
structure Engine where
  model : Model
  optimizer : Optimizer
  criterion : Criterion
  gradient_handlers : Option (List GradientHandler)
  clip_grad_norm : ℚ
deriving DecidableEq, Repr

/-- A configuration contradiction, carrying its message. -/
structure ConfigException where
  message : String
deriving DecidableEq, Repr

/-- The tuple `initialize` returns on success. -/
structure EngineResult where
  engine : Engine
  train_dataloader : Option DataLoader
  test_dataloader : Option DataLoader
  lr_scheduler : Option LRScheduler
deriving DecidableEq, Repr

/-- Observable effects of the assembler, in execution order:
the start-up parameter sync, the converter applications, the native DDP wrap,
the gradient-handler resolution outcome and handler constructions, the
gradient-accumulation wrapping, and the engine construction. -/
inductive Event where
  | syncModelParam
  | convertToAmp (mode : PyVal)
  | convertToZero (level : Nat)
  | wrapDDP (group : ParallelMode)
  | handlersResolved (cfg : Option (List String))
  | buildHandler (htype : String)
  | accumulateGrad (size : Nat)
  | buildEngine
deriving DecidableEq, Repr

/-- Everything a call to the assembler yields: the raised exception or the
returned tuple, the final heap of configuration dictionaries, and the trace of
observable effects. -/
structure InitOut where
  result : Except ConfigException EngineResult
  heap : Heap
  trace : List Event

/-- Message of the raise at lines 280-281 of `initialize.py`. -/
def fp16ZeroMsg : String :=
  "It is not allowed to set fp16 and zero configuration in your config file at the same time"

/-- Message of the raise at lines 333-334 of `initialize.py` (the dynamic tail
interpolating the offending type is elided). -/
def gradientHandlerTypeMsg : String :=
  "expected gradient_handler in the configuration file to be a list"

/-- Message of the raise at lines 364-365 of `initialize.py`. -/
def clipZeroMsg : String :=
  "clip_grad_norm should be specified with zero, you should specify clip_grad in zero configuration"

/-- Message of the raise at lines 367-368 of `initialize.py`. -/
def clipNaiveMsg : String :=
  "clip_grad_norm should be specified with AMP_TYPE.NAIVE, you should specify clip_grad in fp16 configuration"

/-- `fp16_cfg is not None and fp16_cfg.mode is not None` (lines 279 and 285):
the fp16 section is present and carries a non-null mode.  (A section missing
the `mode` key would be a dynamic attribute error in Python; it is treated as
an unset mode here.) -/
def fp16ModeSet (heap : Heap) (fp16_cfg : Option Nat) : Bool :=
  match fp16_cfg with
  | some r =>
      (dictGet (Heap.get heap r) "mode").isSome
        && dictGet (Heap.get heap r) "mode" != some PyVal.pyNone
  | none => false

/-- Output of the mixed-precision step (lines 283-292). -/
structure AmpOut where
  model : Model
  optimizer : Optimizer
  criterion : Criterion
  amp_mode : PyVal
  heap : Heap
  trace : List Event

/-- Lines 283-292 of `initialize.py`: when the fp16 section carries a non-null
mode, copy the section, pop the `mode` key from the copy, and convert the
triple; `amp_mode` stays `None` otherwise. -/
def ampStage (heap : Heap) (fp16_cfg : Option Nat) (model : Model)
    (optimizer : Optimizer) (criterion : Criterion) : AmpOut :=
  match fp16_cfg with
  | some r =>
      if fp16ModeSet heap (some r) then
        let c := Heap.copy heap r
        let p := Heap.popKey c.2 c.1 "mode"
        let amp_mode := p.1.getD PyVal.pyNone
        let t := convert_to_amp model optimizer criterion amp_mode (Heap.get p.2 c.1)
        { model := t.1, optimizer := t.2.1, criterion := t.2.2, amp_mode := amp_mode,
          heap := p.2, trace := [Event.convertToAmp amp_mode] }
      else
        { model := model, optimizer := optimizer, criterion := criterion,
          amp_mode := PyVal.pyNone, heap := heap, trace := [] }
  | none =>
      { model := model, optimizer := optimizer, criterion := criterion,
        amp_mode := PyVal.pyNone, heap := heap, trace := [] }

/-- Output of the sharded-optimizer step (lines 294-301). -/
structure ZeroOut where
  model : Model
  optimizer : Optimizer
  heap : Heap
  trace : List Event

/-- Lines 294-301 of `initialize.py`: when the zero section is present, copy
it, pop the `level` key from the copy, and convert model and optimizer. -/
def zeroStage (heap : Heap) (zero_cfg : Option Nat) (model : Model)
    (optimizer : Optimizer) : ZeroOut :=
  match zero_cfg with
  | some r =>
      let c := Heap.copy heap r
      let p := Heap.popKey c.2 c.1 "level"
      let level := match p.1 with
        | some (PyVal.nat n) => n
        | _ => 0
      let q := convert_to_zero model optimizer level (Heap.get p.2 c.1)
      { model := q.1, optimizer := q.2, heap := p.2, trace := [Event.convertToZero level] }
  | none =>
      { model := model, optimizer := optimizer, heap := heap, trace := [] }

/-- Lines 304-334 of `initialize.py`: resolve the gradient-handler
configuration.  When the key is absent, auto-detect in priority order
(sharded optimizer, native DDP wrap, generic data-parallel handler, nothing);
when present it must be a list, else `ConfigException` is raised. -/
def resolveGradientHandlerCfg (g : GPC) (ghc : GradHandlerCfg)
    (optimizer : Optimizer) (amp_mode : PyVal) (model : Model) :
    Except ConfigException (Model × Option (List String) × List Event) :=
  match ghc with
  | GradHandlerCfg.absent =>
      if isZeroOptimizer optimizer then
        Except.ok (model, some ["ZeROGradientHandler"], [])
      else if is_using_ddp g && !is_using_pp g
          && amp_mode != PyVal.amp AMP_TYPE.NAIVE then
        Except.ok (Model.ddp model ParallelMode.DATA, none,
          [Event.wrapDDP ParallelMode.DATA])
      else if is_using_ddp g then
        Except.ok (model, some ["DataParallelGradientHandler"], [])
      else
        Except.ok (model, none, [])
  | GradHandlerCfg.specs l => Except.ok (model, some l, [])
  | GradHandlerCfg.notAList => Except.error ⟨gradientHandlerTypeMsg⟩

/-- The engine assembler `initialize` of `src/colossalai/initialize.py`
(lines 220-378), statement by statement.  (The Lean name differs because
`initialize` is a reserved word here.)  External effects that carry no
configuration content (logging, the cuDNN flags, moving the model to the
device) are not modelled; communication and conversion effects appear as trace
events.  On an exception the partially updated heap and the trace up to the
raise are returned alongside the error. -/
def initializeEngine (g : GPC) (heap : Heap) (model : Model)
    (optimizer : Optimizer) (criterion : Criterion)
    (train_dataloader : Option DataLoader) (test_dataloader : Option DataLoader)
    (lr_scheduler : Option LRScheduler) : InitOut :=
  let config := g.config
  -- lines 269-273: first sync model across dp ranks, unless zero level 3
  let use_zero3 : Bool :=
    match config.zero with
    | some r => dictGet (Heap.get heap r) "level" == some (PyVal.nat 3)
    | none => false
  let tr0 : List Event := if use_zero3 then [] else [Event.syncModelParam]
  -- lines 276-281: check amp and zero
  let fp16_cfg := config.fp16
  let zero_cfg := config.zero
  if fp16ModeSet heap fp16_cfg && zero_cfg.isSome then
    { result := Except.error ⟨fp16ZeroMsg⟩, heap := heap, trace := tr0 }
  else
    let a := ampStage heap fp16_cfg model optimizer criterion
    let z := zeroStage a.heap zero_cfg a.model a.optimizer
    match resolveGradientHandlerCfg g config.gradient_handler z.optimizer a.amp_mode z.model with
    | Except.error e =>
        { result := Except.error e, heap := z.heap, trace := tr0 ++ a.trace ++ z.trace }
    | Except.ok (model3, gradient_handler_cfg, trR) =>
        -- lines 336-344: build the resolved handlers, if any
        let gradient_handlers : Option (List GradientHandler) :=
          gradient_handler_cfg.map
            (fun specs => specs.map (fun c => build_gradient_handler c model3 z.optimizer))
        let trB : List Event :=
          Event.handlersResolved gradient_handler_cfg ::
            (match gradient_handler_cfg with
             | some specs => specs.map Event.buildHandler
             | none => [])
        -- lines 346-348: ensure the optimizer is a ColossalaiOptimizer
        let optimizer3 :=
          if isColossalaiOptimizer z.optimizer || isZeroOptimizer z.optimizer then
            z.optimizer
          else
            Optimizer.colossalai z.optimizer
        -- lines 350-358: gradient accumulation
        let acc :
            Optimizer × Option DataLoader × Option (List GradientHandler)
              × Option LRScheduler × List Event :=
          match config.gradient_accumulation with
          | some n =>
              let q := accumulate_gradient model3 optimizer3 train_dataloader n
                gradient_handlers lr_scheduler
              (q.1, q.2.1, q.2.2.1, q.2.2.2, [Event.accumulateGrad n])
          | none => (optimizer3, train_dataloader, gradient_handlers, lr_scheduler, [])
        -- lines 360-368: clip grad norm
        let clip_grad_norm : ℚ := (config.clip_grad_norm).getD 0
        let trAll := tr0 ++ a.trace ++ z.trace ++ trR ++ trB ++ acc.2.2.2.2
        let okOut : InitOut :=
          { result := Except.ok
              { engine :=
                  { model := model3, optimizer := acc.1, criterion := a.criterion,
                    gradient_handlers := acc.2.2.1, clip_grad_norm := clip_grad_norm },
                train_dataloader := acc.2.1, test_dataloader := test_dataloader,
                lr_scheduler := acc.2.2.2.1 },
            heap := z.heap, trace := trAll ++ [Event.buildEngine] }
        if 0 < clip_grad_norm then
          if zero_cfg.isSome then
            { result := Except.error ⟨clipZeroMsg⟩, heap := z.heap, trace := trAll }
          else if (match fp16_cfg with
                   | some r =>
                       dictGet (Heap.get z.heap r) "mode"
                         == some (PyVal.amp AMP_TYPE.NAIVE)
                   | none => false) then
            { result := Except.error ⟨clipNaiveMsg⟩, heap := z.heap, trace := trAll }
          else
            okOut
        else
          okOut

/-- The `type` tags of the handler objects built during a run, in build order. -/
def builtTypes (tr : List Event) : List String :=
  tr.filterMap (fun e =>
    match e with
    | Event.buildHandler s => some s
    | _ => none)

/-! Concrete sample inputs used to instantiate the theorems. -/

/-- An empty heap. -/
def heapEmpty : Heap := ⟨[], 0⟩

/-- A heap holding an fp16 section with mode `TORCH` at reference 0. -/
def heapTorch : Heap := ⟨[(0, [("mode", PyVal.amp AMP_TYPE.TORCH)])], 1⟩

/-- A heap holding an fp16 section with mode `NAIVE` at reference 0. -/
def heapNaive : Heap := ⟨[(0, [("mode", PyVal.amp AMP_TYPE.NAIVE)])], 1⟩

/-- A heap holding a zero section with level 2 at reference 0. -/
def heapZero2 : Heap := ⟨[(0, [("level", PyVal.nat 2)])], 1⟩

/-- A heap holding a zero section with level 3 at reference 0. -/
def heapZero3 : Heap := ⟨[(0, [("level", PyVal.nat 3)])], 1⟩

/-- A heap holding an fp16 section (mode `TORCH`) at 0 and a zero section
(level 2) at 1. -/
def heapBoth : Heap :=
  ⟨[(0, [("mode", PyVal.amp AMP_TYPE.TORCH)]), (1, [("level", PyVal.nat 2)])], 2⟩

/-- A heap holding an fp16 section with a null mode at 0 and a zero section
(level 2) at 1. -/
def heapNullModeZero : Heap :=
  ⟨[(0, [("mode", PyVal.pyNone)]), (1, [("level", PyVal.nat 2)])], 2⟩

/-- A topology with fp16 at reference 0 and zero at reference 1, single rank. -/
def gpcC1 : GPC := ⟨⟨some 0, some 1, GradHandlerCfg.absent, none, none⟩, 1, 1⟩

/-- A topology with a zero section at reference 0 and `clip_grad_norm = 1`. -/
def gpcClipZero : GPC := ⟨⟨none, some 0, GradHandlerCfg.absent, none, some 1⟩, 1, 1⟩

/-- A topology with only a zero section at reference 0. -/
def gpcZeroOnly : GPC := ⟨⟨none, some 0, GradHandlerCfg.absent, none, none⟩, 1, 1⟩

/-- A topology with an fp16 section at reference 0, data-parallel size 4,
pipeline size 1. -/
def gpcDdp : GPC := ⟨⟨some 0, none, GradHandlerCfg.absent, none, none⟩, 4, 1⟩

/-- A bare topology with data-parallel size 4 and pipeline size 2. -/
def gpcPipeline : GPC := ⟨⟨none, none, GradHandlerCfg.absent, none, none⟩, 4, 2⟩

/-- A bare single-rank topology. -/
def gpcPlain : GPC := ⟨⟨none, none, GradHandlerCfg.absent, none, none⟩, 1, 1⟩

/-- A topology with an explicit two-element gradient-handler list and
gradient accumulation of size 4. -/
def gpcHandlerList : GPC :=
  ⟨⟨none, none, GradHandlerCfg.specs ["MyHandler", "Other"], some 4, none⟩, 1, 1⟩

/-- A topology whose gradient_handler entry is present but not a list. -/
def gpcHandlerBad : GPC := ⟨⟨none, none, GradHandlerCfg.notAList, none, none⟩, 1, 1⟩

/-! Basic lemmas about the heap and the pipeline stages. -/

theorem Heap.get_copy_fst (h : Heap) (r : Nat) :
    Heap.get (Heap.copy h r).2 (Heap.copy h r).1 = Heap.get h r := by
  simp [Heap.copy, Heap.get, dictsGet]

theorem Heap.get_copy_lt (h : Heap) (rc r : Nat) (hr : r < h.next) :
    Heap.get (Heap.copy h rc).2 r = Heap.get h r := by
  simp [Heap.copy, Heap.get, dictsGet, Nat.ne_of_gt hr]

theorem ampStage_not_set (heap : Heap) (c : Option Nat) (m : Model)
    (o : Optimizer) (cr : Criterion) (h : fp16ModeSet heap c = false) :
    ampStage heap c m o cr = ⟨m, o, cr, PyVal.pyNone, heap, []⟩ := by
  cases c with
  | none => rfl
  | some r => simp [ampStage, h]

theorem ampStage_set (heap : Heap) (rf : Nat) (v : PyVal) (m : Model)
    (o : Optimizer) (cr : Criterion)
    (hm : dictGet (Heap.get heap rf) "mode" = some v) (hv : v ≠ PyVal.pyNone) :
    (ampStage heap (some rf) m o cr).model = Model.amp m v
    ∧ (ampStage heap (some rf) m o cr).optimizer = Optimizer.amp o v
    ∧ (ampStage heap (some rf) m o cr).criterion = Criterion.amp cr v
    ∧ (ampStage heap (some rf) m o cr).amp_mode = v
    ∧ (ampStage heap (some rf) m o cr).trace = [Event.convertToAmp v] := by
  have hms : fp16ModeSet heap (some rf) = true := by
    simp [fp16ModeSet, hm, hv]
  simp [ampStage, hms, Heap.popKey, Heap.get_copy_fst, hm, convert_to_amp]

theorem ampStage_get_lt (heap : Heap) (c : Option Nat) (m : Model)
    (o : Optimizer) (cr : Criterion) (r : Nat) (hr : r < heap.next) :
    Heap.get (ampStage heap c m o cr).heap r = Heap.get heap r := by
  cases c with
  | none => rfl
  | some rf =>
      cases h : fp16ModeSet heap (some rf) with
      | false => simp [ampStage, h]
      | true =>
          simp [ampStage, h, Heap.popKey, Heap.set, Heap.copy, Heap.get,
            dictsGet, Nat.ne_of_gt hr]

theorem ampStage_next_le (heap : Heap) (c : Option Nat) (m : Model)
    (o : Optimizer) (cr : Criterion) :
    heap.next ≤ (ampStage heap c m o cr).heap.next := by
  cases c with
  | none => exact Nat.le_refl _
  | some rf =>
      cases h : fp16ModeSet heap (some rf) with
      | false => simp [ampStage, h]
      | true =>
          simp [ampStage, h, Heap.popKey, Heap.set, Heap.copy]

theorem zeroStage_none (heap : Heap) (m : Model) (o : Optimizer) :
    zeroStage heap none m o = ⟨m, o, heap, []⟩ := rfl

theorem zeroStage_some (heap : Heap) (rz l : Nat) (m : Model) (o : Optimizer)
    (hl : dictGet (Heap.get heap rz) "level" = some (PyVal.nat l)) :
    (zeroStage heap (some rz) m o).model = Model.zero m l
    ∧ (zeroStage heap (some rz) m o).optimizer
        = (if l = 3 then Optimizer.zero3 o else Optimizer.zero2 o)
    ∧ (zeroStage heap (some rz) m o).trace = [Event.convertToZero l] := by
  simp [zeroStage, Heap.popKey, Heap.get_copy_fst, hl, convert_to_zero]

theorem zeroStage_get_lt (heap : Heap) (c : Option Nat) (m : Model)
    (o : Optimizer) (r : Nat) (hr : r < heap.next) :
    Heap.get (zeroStage heap c m o).heap r = Heap.get heap r := by
  cases c with
  | none => rfl
  | some rz =>
      simp [zeroStage, Heap.popKey, Heap.set, Heap.copy, Heap.get,
        dictsGet, Nat.ne_of_gt hr]

theorem zeroStage_next_le (heap : Heap) (c : Option Nat) (m : Model)
    (o : Optimizer) : heap.next ≤ (zeroStage heap c m o).heap.next := by
  cases c with
  | none => exact Nat.le_refl _
  | some rz => simp [zeroStage, Heap.popKey, Heap.set, Heap.copy]

theorem isZeroOptimizer_convert (o : Optimizer) (l : Nat) :
    isZeroOptimizer (if l = 3 then Optimizer.zero3 o else Optimizer.zero2 o) = true := by
  split <;> rfl

theorem zeroStage_optimizer_isZero (heap : Heap) (rz : Nat) (m : Model) (o : Optimizer) :
    isZeroOptimizer (zeroStage heap (some rz) m o).optimizer = true := by
  simp only [zeroStage, convert_to_zero]
  split <;> rfl

theorem fp16ModeSet_false_not_naive (heap : Heap) (rf : Nat)
    (h : fp16ModeSet heap (some rf) = false) :
    (dictGet (Heap.get heap rf) "mode" == some (PyVal.amp AMP_TYPE.NAIVE)) = false := by
  cases hd : dictGet (Heap.get heap rf) "mode" with
  | none => rfl
  | some v =>
      simp [fp16ModeSet, hd] at h
      simp [hd, h]

theorem resolve_cases (g : GPC) (ghc : GradHandlerCfg) (o : Optimizer)
    (a : PyVal) (m : Model) :
    (∃ x, resolveGradientHandlerCfg g ghc o a m = Except.ok x)
    ∨ resolveGradientHandlerCfg g ghc o a m = Except.error ⟨gradientHandlerTypeMsg⟩ := by
  cases ghc with
  | absent =>
      simp only [resolveGradientHandlerCfg]
      split_ifs <;> exact Or.inl ⟨_, rfl⟩
  | specs l => exact Or.inl ⟨_, rfl⟩
  | notAList => exact Or.inr rfl

/-! The claims. -/

/-- Claim C1: for every configuration whose fp16 section carries a non-null
mode while a zero section is also present, the assembler raises
`ConfigException` (the fp16/zero mutual-exclusion message) and constructs no
engine; the exception is raised before either the mixed-precision converter or
the sharded-optimizer converter runs (no conversion event is in the trace). -/
theorem c1_fp16_zero_mutual_exclusion
    (g : GPC) (heap : Heap) (model : Model) (optimizer : Optimizer)
    (criterion : Criterion) (td vd : Option DataLoader) (sched : Option LRScheduler)
    (rf : Nat) (hf : g.config.fp16 = some rf)
    (v : PyVal) (hm : dictGet (Heap.get heap rf) "mode" = some v)
    (hv : v ≠ PyVal.pyNone)
    (rz : Nat) (hz : g.config.zero = some rz) :
    (initializeEngine g heap model optimizer criterion td vd sched).result
        = Except.error ⟨fp16ZeroMsg⟩
    ∧ (∀ mo, Event.convertToAmp mo
        ∉ (initializeEngine g heap model optimizer criterion td vd sched).trace)
    ∧ (∀ l, Event.convertToZero l
        ∉ (initializeEngine g heap model optimizer criterion td vd sched).trace)
    ∧ Event.buildEngine
        ∉ (initializeEngine g heap model optimizer criterion td vd sched).trace := by
  have hms : fp16ModeSet heap g.config.fp16 = true := by
    simp [fp16ModeSet, hf, hm, hv]
  have key : initializeEngine g heap model optimizer criterion td vd sched
      = { result := Except.error ⟨fp16ZeroMsg⟩, heap := heap,
          trace := if (dictGet (Heap.get heap rz) "level" == some (PyVal.nat 3))
            then [] else [Event.syncModelParam] } := by
    simp [initializeEngine, hms, hz]
  refine ⟨?_, fun mo => ?_, fun l => ?_, ?_⟩ <;> rw [key] <;>
    first
      | rfl
      | (by_cases hc : (dictGet (Heap.get heap rz) "level" == some (PyVal.nat 3)) = true <;>
          simp [hc])

/-- Witness for C1 at a concrete input: fp16 mode `TORCH` at reference 0 plus
zero level 2 at reference 1. -/
theorem c1_witness :
    (initializeEngine gpcC1 heapBoth (Model.base 0) (Optimizer.base 0)
        (Criterion.base 0) none none none).result = Except.error ⟨fp16ZeroMsg⟩ :=
  (c1_fp16_zero_mutual_exclusion gpcC1 heapBoth (Model.base 0) (Optimizer.base 0)
    (Criterion.base 0) none none none 0 rfl (PyVal.amp AMP_TYPE.TORCH) rfl
    (by decide) 1 rfl).1

/-- Claim C2: for every configuration with a positive clip_grad_norm and a zero
section present, and for every configuration with a positive clip_grad_norm and
fp16 mode equal to the naive mode (behind a valid reference), the assembler
raises `ConfigException` and constructs no engine. -/
theorem c2_clip_grad_norm_incompatible
    (g : GPC) (heap : Heap) (model : Model) (optimizer : Optimizer)
    (criterion : Criterion) (td vd : Option DataLoader) (sched : Option LRScheduler)
    (hclip : 0 < (g.config.clip_grad_norm).getD 0)
    (hcase : (g.config.zero).isSome = true
      ∨ ∃ rf, g.config.fp16 = some rf ∧ rf < heap.next
          ∧ dictGet (Heap.get heap rf) "mode" = some (PyVal.amp AMP_TYPE.NAIVE)) :
    ∃ e, (initializeEngine g heap model optimizer criterion td vd sched).result
        = Except.error e := by
  rcases hcase with hz | ⟨rf, hf, hrf, hm⟩
  · obtain ⟨rz, hz⟩ := Option.isSome_iff_exists.mp hz
    cases hms : fp16ModeSet heap g.config.fp16 with
    | true => simp [initializeEngine, hms, hz]
    | false =>
        have hamp := ampStage_not_set heap g.config.fp16 model optimizer criterion hms
        cases hgh : g.config.gradient_handler <;>
          simp [initializeEngine, hms, hz, hamp, hgh, resolveGradientHandlerCfg,
            zeroStage_optimizer_isZero, hclip]
  · have hms : fp16ModeSet heap g.config.fp16 = true := by
      simp [fp16ModeSet, hf, hm]
    cases hz2 : g.config.zero with
    | some rz => simp [initializeEngine, hms, hz2]
    | none =>
        obtain ⟨ham1, ham2, ham3, ham4, ham5⟩ :=
          ampStage_set heap rf (PyVal.amp AMP_TYPE.NAIVE) model optimizer criterion hm
            (by decide)
        have hget := ampStage_get_lt heap (some rf) model optimizer criterion rf hrf
        cases hgh : g.config.gradient_handler with
        | absent =>
            cases hd : is_using_ddp g <;>
              simp [initializeEngine, hms, hz2, hf, hgh, ham2, ham4, zeroStage_none,
                resolveGradientHandlerCfg, isZeroOptimizer, hd, hget, hm, hclip]
        | specs l =>
            simp [initializeEngine, hms, hz2, hf, ham2, ham4, zeroStage_none,
              resolveGradientHandlerCfg, hgh, hget, hm, hclip]
        | notAList =>
            simp [initializeEngine, hms, hz2, hf, hgh, resolveGradientHandlerCfg,
              zeroStage_none]

/-- Witness for C2 at a concrete input: zero level 2 at reference 0 together
with `clip_grad_norm = 1`. -/
theorem c2_witness :
    ∃ e, (initializeEngine gpcClipZero heapZero2 (Model.base 0) (Optimizer.base 0)
        (Criterion.base 0) none none none).result = Except.error e :=
  c2_clip_grad_norm_incompatible gpcClipZero heapZero2 (Model.base 0)
    (Optimizer.base 0) (Criterion.base 0) none none none (by decide) (Or.inl rfl)

/-- Claim C3 counterexample: at the concrete configuration zero level 2 plus
`clip_grad_norm = 1`, the assembler raises `ConfigException` (the clip/zero
message) although the sharded-optimizer converter has already been applied:
the conversion event precedes the raise in the trace.  This refutes the claim
that at the moment any `ConfigException` is raised no converter has run. -/
theorem c3_counterexample :
    (initializeEngine gpcClipZero heapZero2 (Model.base 0) (Optimizer.base 0)
        (Criterion.base 0) none none none).result = Except.error ⟨clipZeroMsg⟩
    ∧ Event.convertToZero 2
        ∈ (initializeEngine gpcClipZero heapZero2 (Model.base 0) (Optimizer.base 0)
            (Criterion.base 0) none none none).trace := by
  exact ⟨rfl, by decide⟩

/-- Claim C3 (amended): whenever the assembler raises the fp16/zero
mutual-exclusion `ConfigException`, no feature converter has been applied —
the trace holds no mixed-precision, sharded-optimizer or gradient-accumulation
event.  The handler-list-type and clip-norm `ConfigException`s are instead
raised only after the converters have already run. -/
theorem c3_mutual_exclusion_fails_fast
    (g : GPC) (heap : Heap) (model : Model) (optimizer : Optimizer)
    (criterion : Criterion) (td vd : Option DataLoader) (sched : Option LRScheduler)
    (herr : (initializeEngine g heap model optimizer criterion td vd sched).result
        = Except.error ⟨fp16ZeroMsg⟩) :
    (∀ mo, Event.convertToAmp mo
        ∉ (initializeEngine g heap model optimizer criterion td vd sched).trace)
    ∧ (∀ l, Event.convertToZero l
        ∉ (initializeEngine g heap model optimizer criterion td vd sched).trace)
    ∧ (∀ n, Event.accumulateGrad n
        ∉ (initializeEngine g heap model optimizer criterion td vd sched).trace) := by
  by_cases hc : (fp16ModeSet heap g.config.fp16 && (g.config.zero).isSome) = true
  · refine ⟨fun mo => ?_, fun l => ?_, fun n => ?_⟩ <;>
      · simp only [initializeEngine, hc, if_true]
        split <;> simp
  · exfalso
    have hc' : (fp16ModeSet heap g.config.fp16 && (g.config.zero).isSome) = false :=
      Bool.not_eq_true _ ▸ Bool.of_not_eq_true hc
    rcases resolve_cases g g.config.gradient_handler
        (zeroStage (ampStage heap g.config.fp16 model optimizer criterion).heap
          g.config.zero
          (ampStage heap g.config.fp16 model optimizer criterion).model
          (ampStage heap g.config.fp16 model optimizer criterion).optimizer).optimizer
        (ampStage heap g.config.fp16 model optimizer criterion).amp_mode
        (zeroStage (ampStage heap g.config.fp16 model optimizer criterion).heap
          g.config.zero
          (ampStage heap g.config.fp16 model optimizer criterion).model
          (ampStage heap g.config.fp16 model optimizer criterion).optimizer).model
      with ⟨⟨m3, cfg, trR⟩, hok⟩ | hbad
    · rw [initializeEngine] at herr
      simp only [hc', Bool.false_eq_true, if_false, hok] at herr
      split_ifs at herr <;>
        simp [fp16ZeroMsg, clipZeroMsg, clipNaiveMsg] at herr
    · rw [initializeEngine] at herr
      simp only [hc', Bool.false_eq_true, if_false, hbad] at herr
      simp [fp16ZeroMsg, gradientHandlerTypeMsg] at herr

/-- Witness for the amended C3 at a concrete input raising the fp16/zero
mutual-exclusion exception: no sharded-optimizer conversion has happened. -/
theorem c3_amended_witness :
    (initializeEngine gpcC1 heapBoth (Model.base 0) (Optimizer.base 0)
        (Criterion.base 0) none none none).result = Except.error ⟨fp16ZeroMsg⟩
    ∧ Event.convertToZero 2
        ∉ (initializeEngine gpcC1 heapBoth (Model.base 0) (Optimizer.base 0)
            (Criterion.base 0) none none none).trace :=
  ⟨rfl,
    (c3_mutual_exclusion_fails_fast gpcC1 heapBoth (Model.base 0) (Optimizer.base 0)
      (Criterion.base 0) none none none rfl).2.1 2⟩

/-- Claim C4: with no explicit gradient_handler entry, whenever the optimizer
after conversion is a sharded-optimizer-state optimizer — either because the
configuration holds a zero section with level 2 or 3 (fp16 mode unset, since a
set mode is rejected up front), or because the caller passed a sharded
optimizer with no zero section and no mixed-precision conversion — the
resolved gradient-handler set is exactly one sharded-optimizer handler,
regardless of the data-parallel size, pipeline size, or gradient-accumulation
setting, and the native DDP wrap never happens. -/
theorem c4_zero_optimizer_handler
    (g : GPC) (heap : Heap) (model : Model) (optimizer : Optimizer)
    (criterion : Criterion) (td vd : Option DataLoader) (sched : Option LRScheduler)
    (hgh : g.config.gradient_handler = GradHandlerCfg.absent)
    (hcase :
      (∃ rz l, g.config.zero = some rz
        ∧ dictGet (Heap.get heap rz) "level" = some (PyVal.nat l)
        ∧ (l = 2 ∨ l = 3)
        ∧ fp16ModeSet heap g.config.fp16 = false)
      ∨ (g.config.zero = none ∧ isZeroOptimizer optimizer = true
        ∧ fp16ModeSet heap g.config.fp16 = false)) :
    Event.handlersResolved (some ["ZeROGradientHandler"])
      ∈ (initializeEngine g heap model optimizer criterion td vd sched).trace
    ∧ builtTypes (initializeEngine g heap model optimizer criterion td vd sched).trace
      = ["ZeROGradientHandler"]
    ∧ (∀ gr, Event.wrapDDP gr
        ∉ (initializeEngine g heap model optimizer criterion td vd sched).trace) := by
  rcases hcase with ⟨rz, l, hz, hl, hl23, hms⟩ | ⟨hz, hzo, hms⟩
  · have hamp := ampStage_not_set heap g.config.fp16 model optimizer criterion hms
    obtain ⟨hzm, hzo2, hzt⟩ := zeroStage_some heap rz l model optimizer hl
    have hguard : (fp16ModeSet heap g.config.fp16 && (g.config.zero).isSome) = false := by
      simp [hms]
    refine ⟨?_, ?_, fun gr => ?_⟩ <;>
      · by_cases hcl : 0 < (g.config.clip_grad_norm).getD 0 <;>
        cases hacc : g.config.gradient_accumulation <;>
        by_cases hz3b : (dictGet (Heap.get heap rz) "level" == some (PyVal.nat 3)) = true <;>
        simp [initializeEngine, hms, hz, hamp, hgh, resolveGradientHandlerCfg,
          zeroStage_optimizer_isZero, hzt, hcl, hacc, hz3b, builtTypes,
          accumulate_gradient]
  · refine ⟨?_, ?_, fun gr => ?_⟩ <;>
      · cases hfc : g.config.fp16 with
        | none =>
            have hamp := ampStage_not_set heap none model optimizer criterion rfl
            by_cases hcl : 0 < (g.config.clip_grad_norm).getD 0 <;>
            cases hacc : g.config.gradient_accumulation <;>
            simp [initializeEngine, hms, hz, hfc, hamp, hgh, zeroStage_none,
              resolveGradientHandlerCfg, hzo, hcl, hacc, builtTypes,
              accumulate_gradient]
        | some rf =>
            have hamp := ampStage_not_set heap (some rf) model optimizer criterion
              (hfc ▸ hms)
            have hnn := fp16ModeSet_false_not_naive heap rf (hfc ▸ hms)
            by_cases hcl : 0 < (g.config.clip_grad_norm).getD 0 <;>
            cases hacc : g.config.gradient_accumulation <;>
            simp [initializeEngine, hms, hz, hfc, hamp, hgh, zeroStage_none,
              resolveGradientHandlerCfg, hzo, hcl, hacc, hnn, builtTypes,
              accumulate_gradient]

/-- Witness for C4 at a concrete input: zero level 2 only, single rank. -/
theorem c4_witness :
    Event.handlersResolved (some ["ZeROGradientHandler"])
      ∈ (initializeEngine gpcZeroOnly heapZero2 (Model.base 0) (Optimizer.base 0)
          (Criterion.base 0) none none none).trace
    ∧ builtTypes (initializeEngine gpcZeroOnly heapZero2 (Model.base 0)
        (Optimizer.base 0) (Criterion.base 0) none none none).trace
      = ["ZeROGradientHandler"]
    ∧ Event.wrapDDP ParallelMode.DATA
      ∉ (initializeEngine gpcZeroOnly heapZero2 (Model.base 0) (Optimizer.base 0)
          (Criterion.base 0) none none none).trace :=
  (fun X => ⟨X.1, X.2.1, X.2.2 ParallelMode.DATA⟩)
    (c4_zero_optimizer_handler gpcZeroOnly heapZero2 (Model.base 0) (Optimizer.base 0)
      (Criterion.base 0) none none none rfl
      (Or.inl ⟨0, 2, rfl, rfl, Or.inl rfl, rfl⟩))

/-- Claim C5: with no explicit gradient_handler entry, a non-sharded optimizer
(no zero section, passed optimizer not sharded), data-parallel active
(size > 1), pipeline inactive (size 1), and an fp16 mode that is not the naive
variant, the model is wrapped in the framework-native DDP wrapper bound to the
data-parallel group, the resolved handler set is empty, and no gradient-handler
object is built. -/
theorem c5_native_ddp_wrap
    (g : GPC) (heap : Heap) (model : Model) (optimizer : Optimizer)
    (criterion : Criterion) (td vd : Option DataLoader) (sched : Option LRScheduler)
    (hgh : g.config.gradient_handler = GradHandlerCfg.absent)
    (hz : g.config.zero = none)
    (hzo : isZeroOptimizer optimizer = false)
    (hddp : 1 < g.data_parallel_size)
    (hpp : g.pipeline_parallel_size = 1)
    (hwf : ∀ rf, g.config.fp16 = some rf → rf < heap.next)
    (hnaive : ∀ rf, g.config.fp16 = some rf →
        dictGet (Heap.get heap rf) "mode" ≠ some (PyVal.amp AMP_TYPE.NAIVE)) :
    (∃ er, (initializeEngine g heap model optimizer criterion td vd sched).result
        = Except.ok er
      ∧ (∃ m, er.engine.model = Model.ddp m ParallelMode.DATA)
      ∧ er.engine.gradient_handlers = none)
    ∧ Event.wrapDDP ParallelMode.DATA
        ∈ (initializeEngine g heap model optimizer criterion td vd sched).trace
    ∧ Event.handlersResolved none
        ∈ (initializeEngine g heap model optimizer criterion td vd sched).trace
    ∧ builtTypes (initializeEngine g heap model optimizer criterion td vd sched).trace
        = [] := by
  cases hms : fp16ModeSet heap g.config.fp16 with
  | false =>
      refine ⟨?_, ?_, ?_, ?_⟩ <;>
        · cases hfc : g.config.fp16 with
          | none =>
              have hamp := ampStage_not_set heap none model optimizer criterion rfl
              cases hacc : g.config.gradient_accumulation <;>
              simp [initializeEngine, hms, hz, hfc, hamp, hgh, zeroStage_none,
                resolveGradientHandlerCfg, hzo, is_using_ddp, is_using_pp, hddp,
                hpp, hacc, builtTypes, accumulate_gradient]
          | some rf =>
              have hamp := ampStage_not_set heap (some rf) model optimizer criterion
                (hfc ▸ hms)
              have hnn := fp16ModeSet_false_not_naive heap rf (hfc ▸ hms)
              cases hacc : g.config.gradient_accumulation <;>
              simp [initializeEngine, hms, hz, hfc, hamp, hgh, zeroStage_none,
                resolveGradientHandlerCfg, hzo, is_using_ddp, is_using_pp, hddp,
                hpp, hacc, hnn, builtTypes, accumulate_gradient]
  | true =>
      cases hfc : g.config.fp16 with
      | none => rw [hfc] at hms; simp [fp16ModeSet] at hms
      | some rf =>
          rw [hfc] at hms
          obtain ⟨v, hm⟩ : ∃ v, dictGet (Heap.get heap rf) "mode" = some v := by
            rcases hd : dictGet (Heap.get heap rf) "mode" with _ | v
            · simp [fp16ModeSet, hd] at hms
            · exact ⟨v, rfl⟩
          have hv : v ≠ PyVal.pyNone := by
            intro h
            subst h
            simp [fp16ModeSet, hm] at hms
          have hvn : v ≠ PyVal.amp AMP_TYPE.NAIVE := by
            intro h
            exact hnaive rf hfc (h ▸ hm)
          have hbne : (v != PyVal.amp AMP_TYPE.NAIVE) = true := bne_iff_ne.mpr hvn
          have hbeq : (dictGet (Heap.get heap rf) "mode"
              == some (PyVal.amp AMP_TYPE.NAIVE)) = false := by
            simp [hm, hvn]
          obtain ⟨ham1, ham2, ham3, ham4, ham5⟩ :=
            ampStage_set heap rf v model optimizer criterion hm hv
          have hget := ampStage_get_lt heap (some rf) model optimizer criterion rf
            (hwf rf hfc)
          refine ⟨?_, ?_, ?_, ?_⟩ <;>
            · cases hacc : g.config.gradient_accumulation <;>
              simp [initializeEngine, hz, hfc, hgh, ham1, ham2, ham4, ham5,
                zeroStage_none, resolveGradientHandlerCfg, is_using_ddp, is_using_pp,
                hddp, hpp, hacc, hget, hbne, hbeq, builtTypes, accumulate_gradient,
                isZeroOptimizer]

/-- Witness for C5 at a concrete input: fp16 mode `TORCH`, data-parallel size
4, pipeline size 1, nothing else configured. -/
theorem c5_witness :
    (∃ er, (initializeEngine gpcDdp heapTorch (Model.base 0) (Optimizer.base 0)
        (Criterion.base 0) none none none).result = Except.ok er
      ∧ (∃ m, er.engine.model = Model.ddp m ParallelMode.DATA)
      ∧ er.engine.gradient_handlers = none)
    ∧ Event.wrapDDP ParallelMode.DATA
        ∈ (initializeEngine gpcDdp heapTorch (Model.base 0) (Optimizer.base 0)
            (Criterion.base 0) none none none).trace
    ∧ Event.handlersResolved none
        ∈ (initializeEngine gpcDdp heapTorch (Model.base 0) (Optimizer.base 0)
            (Criterion.base 0) none none none).trace
    ∧ builtTypes (initializeEngine gpcDdp heapTorch (Model.base 0) (Optimizer.base 0)
        (Criterion.base 0) none none none).trace = [] :=
  c5_native_ddp_wrap gpcDdp heapTorch (Model.base 0) (Optimizer.base 0)
    (Criterion.base 0) none none none rfl rfl rfl (by decide) rfl
    (by
      intro rf h
      simp [gpcDdp] at h
      simp [heapTorch]
      omega)
    (by
      intro rf h
      simp [gpcDdp] at h
      subst h
      decide)

/-- Claim C6: with no explicit gradient_handler entry, a non-sharded optimizer
(no zero section, passed optimizer not sharded, fp16 not naive), data-parallel
active and pipeline also active (both sizes > 1), the resolved handler set is
exactly one generic data-parallel gradient handler and the assembler does not
wrap the model in the native DDP wrapper. -/
theorem c6_pipeline_data_parallel_handler
    (g : GPC) (heap : Heap) (model : Model) (optimizer : Optimizer)
    (criterion : Criterion) (td vd : Option DataLoader) (sched : Option LRScheduler)
    (hgh : g.config.gradient_handler = GradHandlerCfg.absent)
    (hz : g.config.zero = none)
    (hzo : isZeroOptimizer optimizer = false)
    (hddp : 1 < g.data_parallel_size)
    (hpp : 1 < g.pipeline_parallel_size)
    (hwf : ∀ rf, g.config.fp16 = some rf → rf < heap.next)
    (hnaive : ∀ rf, g.config.fp16 = some rf →
        dictGet (Heap.get heap rf) "mode" ≠ some (PyVal.amp AMP_TYPE.NAIVE)) :
    Event.handlersResolved (some ["DataParallelGradientHandler"])
      ∈ (initializeEngine g heap model optimizer criterion td vd sched).trace
    ∧ builtTypes (initializeEngine g heap model optimizer criterion td vd sched).trace
      = ["DataParallelGradientHandler"]
    ∧ (∀ gr, Event.wrapDDP gr
        ∉ (initializeEngine g heap model optimizer criterion td vd sched).trace) := by
  cases hms : fp16ModeSet heap g.config.fp16 with
  | false =>
      refine ⟨?_, ?_, fun gr => ?_⟩ <;>
        · cases hfc : g.config.fp16 with
          | none =>
              have hamp := ampStage_not_set heap none model optimizer criterion rfl
              cases hacc : g.config.gradient_accumulation <;>
              by_cases hcl : 0 < (g.config.clip_grad_norm).getD 0 <;>
              simp [initializeEngine, hms, hz, hfc, hamp, hgh, zeroStage_none,
                resolveGradientHandlerCfg, hzo, is_using_ddp, is_using_pp, hddp,
                hpp, hacc, hcl, builtTypes, accumulate_gradient]
          | some rf =>
              have hamp := ampStage_not_set heap (some rf) model optimizer criterion
                (hfc ▸ hms)
              have hnn := fp16ModeSet_false_not_naive heap rf (hfc ▸ hms)
              cases hacc : g.config.gradient_accumulation <;>
              by_cases hcl : 0 < (g.config.clip_grad_norm).getD 0 <;>
              simp [initializeEngine, hms, hz, hfc, hamp, hgh, zeroStage_none,
                resolveGradientHandlerCfg, hzo, is_using_ddp, is_using_pp, hddp,
                hpp, hacc, hcl, hnn, builtTypes, accumulate_gradient]
  | true =>
      cases hfc : g.config.fp16 with
      | none => rw [hfc] at hms; simp [fp16ModeSet] at hms
      | some rf =>
          rw [hfc] at hms
          obtain ⟨v, hm⟩ : ∃ v, dictGet (Heap.get heap rf) "mode" = some v := by
            rcases hd : dictGet (Heap.get heap rf) "mode" with _ | v
            · simp [fp16ModeSet, hd] at hms
            · exact ⟨v, rfl⟩
          have hv : v ≠ PyVal.pyNone := by
            intro h
            subst h
            simp [fp16ModeSet, hm] at hms
          have hvn : v ≠ PyVal.amp AMP_TYPE.NAIVE := by
            intro h
            exact hnaive rf hfc (h ▸ hm)
          have hbeq : (dictGet (Heap.get heap rf) "mode"
              == some (PyVal.amp AMP_TYPE.NAIVE)) = false := by
            simp [hm, hvn]
          obtain ⟨ham1, ham2, ham3, ham4, ham5⟩ :=
            ampStage_set heap rf v model optimizer criterion hm hv
          have hget := ampStage_get_lt heap (some rf) model optimizer criterion rf
            (hwf rf hfc)
          refine ⟨?_, ?_, fun gr => ?_⟩ <;>
            · cases hacc : g.config.gradient_accumulation <;>
              by_cases hcl : 0 < (g.config.clip_grad_norm).getD 0 <;>
              simp [initializeEngine, hz, hfc, hgh, ham1, ham2, ham4, ham5,
                zeroStage_none, resolveGradientHandlerCfg, is_using_ddp, is_using_pp,
                hddp, hpp, hacc, hcl, hget, hbeq, builtTypes, accumulate_gradient,
                isZeroOptimizer]

/-- Witness for C6 at a concrete input: data-parallel size 4, pipeline size 2,
nothing else configured. -/
theorem c6_witness :
    Event.handlersResolved (some ["DataParallelGradientHandler"])
      ∈ (initializeEngine gpcPipeline heapEmpty (Model.base 0) (Optimizer.base 0)
          (Criterion.base 0) none none none).trace
    ∧ builtTypes (initializeEngine gpcPipeline heapEmpty (Model.base 0)
        (Optimizer.base 0) (Criterion.base 0) none none none).trace
      = ["DataParallelGradientHandler"]
    ∧ Event.wrapDDP ParallelMode.DATA
      ∉ (initializeEngine gpcPipeline heapEmpty (Model.base 0) (Optimizer.base 0)
          (Criterion.base 0) none none none).trace :=
  (fun X => ⟨X.1, X.2.1, X.2.2 ParallelMode.DATA⟩)
    (c6_pipeline_data_parallel_handler gpcPipeline heapEmpty (Model.base 0)
      (Optimizer.base 0) (Criterion.base 0) none none none rfl rfl rfl
      (by decide) (by decide)
      (by intro rf h; simp [gpcPipeline] at h)
      (by intro rf h; simp [gpcPipeline] at h))

/-- The start-up `use_zero3` test is true exactly when a zero section with
level 3 is configured. -/
theorem use_zero3_iff (g : GPC) (heap : Heap) :
    ((match g.config.zero with
      | some r => dictGet (Heap.get heap r) "level" == some (PyVal.nat 3)
      | none => false) = true)
    ↔ ∃ rz, g.config.zero = some rz
        ∧ dictGet (Heap.get heap rz) "level" = some (PyVal.nat 3) := by
  cases hzc : g.config.zero <;> simp [hzc]

theorem sync_not_mem_of_zero3
    (g : GPC) (heap : Heap) (model : Model) (optimizer : Optimizer)
    (criterion : Criterion) (td vd : Option DataLoader) (sched : Option LRScheduler)
    (hu : (match g.config.zero with
           | some r => dictGet (Heap.get heap r) "level" == some (PyVal.nat 3)
           | none => false) = true) :
    Event.syncModelParam
      ∉ (initializeEngine g heap model optimizer criterion td vd sched).trace := by
  cases hzc : g.config.zero with
  | none => rw [hzc] at hu; exact absurd hu (by simp)
  | some rz =>
      rw [hzc] at hu
      have hl : dictGet (Heap.get heap rz) "level" = some (PyVal.nat 3) := by
        simpa using hu
      by_cases hms : fp16ModeSet heap g.config.fp16 = true
      · simp [initializeEngine, hms, hzc, hu, hl]
      · have hms' : fp16ModeSet heap g.config.fp16 = false := by
          simpa using hms
        have hamp := ampStage_not_set heap g.config.fp16 model optimizer criterion hms'
        obtain ⟨hzm, hzo2, hzt⟩ := zeroStage_some heap rz 3 model optimizer hl
        cases hgh : g.config.gradient_handler with
        | absent =>
            by_cases hcl : 0 < (g.config.clip_grad_norm).getD 0 <;>
            cases hacc : g.config.gradient_accumulation <;>
            simp [initializeEngine, hms', hzc, hu, hl, hamp, hgh, hzt,
              resolveGradientHandlerCfg, zeroStage_optimizer_isZero, hcl, hacc,
              accumulate_gradient]
        | specs l =>
            by_cases hcl : 0 < (g.config.clip_grad_norm).getD 0 <;>
            cases hacc : g.config.gradient_accumulation <;>
            simp [initializeEngine, hms', hzc, hu, hl, hamp, hgh, hzt,
              resolveGradientHandlerCfg, hcl, hacc, accumulate_gradient]
        | notAList =>
            simp [initializeEngine, hms', hzc, hu, hl, hamp, hgh, hzt,
              resolveGradientHandlerCfg]

theorem sync_head_of_not_zero3
    (g : GPC) (heap : Heap) (model : Model) (optimizer : Optimizer)
    (criterion : Criterion) (td vd : Option DataLoader) (sched : Option LRScheduler)
    (h : (match g.config.zero with
          | some r => dictGet (Heap.get heap r) "level" == some (PyVal.nat 3)
          | none => false) = false) :
    (initializeEngine g heap model optimizer criterion td vd sched).trace.head?
      = some Event.syncModelParam := by
  by_cases hguard : (fp16ModeSet heap g.config.fp16 && (g.config.zero).isSome) = true
  · simp [initializeEngine, hguard, h]
  · have hguard' : (fp16ModeSet heap g.config.fp16 && (g.config.zero).isSome) = false := by
      simpa using hguard
    rcases resolve_cases g g.config.gradient_handler
        (zeroStage (ampStage heap g.config.fp16 model optimizer criterion).heap
          g.config.zero
          (ampStage heap g.config.fp16 model optimizer criterion).model
          (ampStage heap g.config.fp16 model optimizer criterion).optimizer).optimizer
        (ampStage heap g.config.fp16 model optimizer criterion).amp_mode
        (zeroStage (ampStage heap g.config.fp16 model optimizer criterion).heap
          g.config.zero
          (ampStage heap g.config.fp16 model optimizer criterion).model
          (ampStage heap g.config.fp16 model optimizer criterion).optimizer).model
      with ⟨⟨m3, cfg, trR⟩, hok⟩ | hbad
    · simp only [initializeEngine, hguard', Bool.false_eq_true, if_false, hok]
      split_ifs <;> simp_all
    · simp [initializeEngine, hguard', hbad, h]

/-- Claim C7: the start-up parameter synchronization across data-parallel
ranks happens iff the configuration does not hold a zero section with level 3;
whenever it happens it is the very first observable effect, before any
converter runs. -/
theorem c7_sync_iff_not_zero3
    (g : GPC) (heap : Heap) (model : Model) (optimizer : Optimizer)
    (criterion : Criterion) (td vd : Option DataLoader) (sched : Option LRScheduler) :
    ((Event.syncModelParam
        ∈ (initializeEngine g heap model optimizer criterion td vd sched).trace)
      ↔ ¬ ∃ rz, g.config.zero = some rz
            ∧ dictGet (Heap.get heap rz) "level" = some (PyVal.nat 3))
    ∧ ((¬ ∃ rz, g.config.zero = some rz
            ∧ dictGet (Heap.get heap rz) "level" = some (PyVal.nat 3)) →
        (initializeEngine g heap model optimizer criterion td vd sched).trace.head?
          = some Event.syncModelParam) := by
  have hfalse : (¬ ∃ rz, g.config.zero = some rz
      ∧ dictGet (Heap.get heap rz) "level" = some (PyVal.nat 3)) →
      (match g.config.zero with
       | some r => dictGet (Heap.get heap r) "level" == some (PyVal.nat 3)
       | none => false) = false := by
    intro hnex
    cases hb : (match g.config.zero with
       | some r => dictGet (Heap.get heap r) "level" == some (PyVal.nat 3)
       | none => false) with
    | true => exact absurd ((use_zero3_iff g heap).mp hb) hnex
    | false => rfl
  constructor
  · constructor
    · intro hmem hex
      exact sync_not_mem_of_zero3 g heap model optimizer criterion td vd sched
        ((use_zero3_iff g heap).mpr hex) hmem
    · intro hnex
      exact List.mem_of_mem_head?
        (by simp [sync_head_of_not_zero3 g heap model optimizer criterion td vd sched
          (hfalse hnex)])
  · intro hnex
    exact sync_head_of_not_zero3 g heap model optimizer criterion td vd sched
      (hfalse hnex)

/-- Witness for C7 at two concrete inputs: with zero level 3 the sync is
skipped; with no zero section the sync is the first effect. -/
theorem c7_witness :
    Event.syncModelParam
      ∉ (initializeEngine gpcZeroOnly heapZero3 (Model.base 0) (Optimizer.base 0)
          (Criterion.base 0) none none none).trace
    ∧ (initializeEngine gpcPlain heapEmpty (Model.base 0) (Optimizer.base 0)
        (Criterion.base 0) none none none).trace.head?
      = some Event.syncModelParam :=
  ⟨fun hmem =>
      ((c7_sync_iff_not_zero3 gpcZeroOnly heapZero3 (Model.base 0) (Optimizer.base 0)
        (Criterion.base 0) none none none).1.mp hmem) ⟨0, rfl, rfl⟩,
    (c7_sync_iff_not_zero3 gpcPlain heapEmpty (Model.base 0) (Optimizer.base 0)
      (Criterion.base 0) none none none).2 (by simp [gpcPlain])⟩

theorem filterMap_comp_buildHandler (l : List String) :
    List.filterMap ((fun e =>
        match e with
        | Event.buildHandler s => some s
        | _ => none) ∘ Event.buildHandler) l = l := by
  induction l with
  | nil => rfl
  | cons x xs ih => simp [ih]

theorem ampStage_trace_cases (heap : Heap) (c : Option Nat) (m : Model)
    (o : Optimizer) (cr : Criterion) :
    (ampStage heap c m o cr).trace = []
    ∨ ∃ v, (ampStage heap c m o cr).trace = [Event.convertToAmp v] := by
  cases c with
  | none => exact Or.inl rfl
  | some r =>
      cases hb : fp16ModeSet heap (some r) with
      | false => exact Or.inl (by simp [ampStage, hb])
      | true =>
          refine Or.inr ⟨((Heap.popKey (Heap.copy heap r).2 (Heap.copy heap r).1
            "mode").1.getD PyVal.pyNone), ?_⟩
          simp [ampStage, hb]

theorem zeroStage_trace_cases (heap : Heap) (c : Option Nat) (m : Model)
    (o : Optimizer) :
    (zeroStage heap c m o).trace = []
    ∨ ∃ lv, (zeroStage heap c m o).trace = [Event.convertToZero lv] := by
  cases c with
  | none => exact Or.inl rfl
  | some r => exact Or.inr ⟨_, rfl⟩

set_option maxHeartbeats 1000000 in
/-- Claim C8: when the configuration holds an explicit gradient_handler entry:
if the entry is not a list the assembler raises `ConfigException`; if it is a
list (and the configuration is not already rejected by the earlier fp16/zero
mutual-exclusion check), exactly one handler is built per listed
specification, in the listed order, and the auto-detection branches are not
consulted — in particular the native DDP wrap never happens. -/
theorem c8_explicit_gradient_handler
    (g : GPC) (heap : Heap) (model : Model) (optimizer : Optimizer)
    (criterion : Criterion) (td vd : Option DataLoader) (sched : Option LRScheduler) :
    (g.config.gradient_handler = GradHandlerCfg.notAList →
      ∃ e, (initializeEngine g heap model optimizer criterion td vd sched).result
        = Except.error e)
    ∧ (∀ l, g.config.gradient_handler = GradHandlerCfg.specs l →
        ¬(fp16ModeSet heap g.config.fp16 = true ∧ (g.config.zero).isSome = true) →
        builtTypes (initializeEngine g heap model optimizer criterion td vd sched).trace
          = l
        ∧ Event.handlersResolved (some l)
            ∈ (initializeEngine g heap model optimizer criterion td vd sched).trace
        ∧ (∀ gr, Event.wrapDDP gr
            ∉ (initializeEngine g heap model optimizer criterion td vd sched).trace)) := by
  constructor
  · intro hgh
    by_cases hguard : (fp16ModeSet heap g.config.fp16 && (g.config.zero).isSome) = true
    · simp [initializeEngine, hguard]
    · have hguard' : (fp16ModeSet heap g.config.fp16 && (g.config.zero).isSome)
          = false := by simpa using hguard
      simp [initializeEngine, hguard', hgh, resolveGradientHandlerCfg]
  · intro l hgh hnot
    have hguard' : (fp16ModeSet heap g.config.fp16 && (g.config.zero).isSome)
        = false := by
      cases h2 : (fp16ModeSet heap g.config.fp16 && (g.config.zero).isSome) with
      | false => rfl
      | true => exact absurd (Bool.and_eq_true_iff.mp h2) hnot
    have hok : resolveGradientHandlerCfg g g.config.gradient_handler
        (zeroStage (ampStage heap g.config.fp16 model optimizer criterion).heap
          g.config.zero
          (ampStage heap g.config.fp16 model optimizer criterion).model
          (ampStage heap g.config.fp16 model optimizer criterion).optimizer).optimizer
        (ampStage heap g.config.fp16 model optimizer criterion).amp_mode
        (zeroStage (ampStage heap g.config.fp16 model optimizer criterion).heap
          g.config.zero
          (ampStage heap g.config.fp16 model optimizer criterion).model
          (ampStage heap g.config.fp16 model optimizer criterion).optimizer).model
        = Except.ok
            ((zeroStage (ampStage heap g.config.fp16 model optimizer criterion).heap
              g.config.zero
              (ampStage heap g.config.fp16 model optimizer criterion).model
              (ampStage heap g.config.fp16 model optimizer criterion).optimizer).model,
             some l, []) := by
      rw [hgh]
      simp [resolveGradientHandlerCfg]
    rcases ampStage_trace_cases heap g.config.fp16 model optimizer criterion
      with hat | ⟨v, hat⟩ <;>
    rcases zeroStage_trace_cases
        (ampStage heap g.config.fp16 model optimizer criterion).heap g.config.zero
        (ampStage heap g.config.fp16 model optimizer criterion).model
        (ampStage heap g.config.fp16 model optimizer criterion).optimizer
      with hzt | ⟨lv, hzt⟩ <;>
    refine ⟨?_, ?_, fun gr => ?_⟩ <;>
      · cases hacc : g.config.gradient_accumulation <;>
        · simp only [initializeEngine, hguard', Bool.false_eq_true, if_false, hok,
            hacc]
          split_ifs <;>
            simp [hat, hzt, builtTypes, accumulate_gradient,
              filterMap_comp_buildHandler]

/-- Witness for C8 at concrete inputs: a non-list entry raises; a two-element
list builds exactly those two handlers in order, with gradient accumulation
also configured. -/
theorem c8_witness :
    (∃ e, (initializeEngine gpcHandlerBad heapEmpty (Model.base 0) (Optimizer.base 0)
        (Criterion.base 0) none none none).result = Except.error e)
    ∧ builtTypes (initializeEngine gpcHandlerList heapEmpty (Model.base 0)
        (Optimizer.base 0) (Criterion.base 0) (some (DataLoader.base 0)) none
        none).trace = ["MyHandler", "Other"]
    ∧ Event.handlersResolved (some ["MyHandler", "Other"])
        ∈ (initializeEngine gpcHandlerList heapEmpty (Model.base 0) (Optimizer.base 0)
            (Criterion.base 0) (some (DataLoader.base 0)) none none).trace :=
  ⟨(c8_explicit_gradient_handler gpcHandlerBad heapEmpty (Model.base 0)
      (Optimizer.base 0) (Criterion.base 0) none none none).1 rfl,
    (fun X => ⟨X.1, X.2.1⟩)
      ((c8_explicit_gradient_handler gpcHandlerList heapEmpty (Model.base 0)
        (Optimizer.base 0) (Criterion.base 0) (some (DataLoader.base 0)) none
        none).2 ["MyHandler", "Other"] rfl (by decide))⟩

theorem heap_get_preserved
    (g : GPC) (heap : Heap) (model : Model) (optimizer : Optimizer)
    (criterion : Criterion) (td vd : Option DataLoader) (sched : Option LRScheduler)
    (r : Nat) (hr : r < heap.next) :
    Heap.get (initializeEngine g heap model optimizer criterion td vd sched).heap r
      = Heap.get heap r := by
  have h1 := ampStage_get_lt heap g.config.fp16 model optimizer criterion r hr
  have h2 := zeroStage_get_lt
    (ampStage heap g.config.fp16 model optimizer criterion).heap g.config.zero
    (ampStage heap g.config.fp16 model optimizer criterion).model
    (ampStage heap g.config.fp16 model optimizer criterion).optimizer r
    (lt_of_lt_of_le hr (ampStage_next_le heap g.config.fp16 model optimizer criterion))
  by_cases hguard : (fp16ModeSet heap g.config.fp16 && (g.config.zero).isSome) = true
  · simp [initializeEngine, hguard]
  · have hguard' : (fp16ModeSet heap g.config.fp16 && (g.config.zero).isSome)
        = false := by simpa using hguard
    rcases resolve_cases g g.config.gradient_handler
        (zeroStage (ampStage heap g.config.fp16 model optimizer criterion).heap
          g.config.zero
          (ampStage heap g.config.fp16 model optimizer criterion).model
          (ampStage heap g.config.fp16 model optimizer criterion).optimizer).optimizer
        (ampStage heap g.config.fp16 model optimizer criterion).amp_mode
        (zeroStage (ampStage heap g.config.fp16 model optimizer criterion).heap
          g.config.zero
          (ampStage heap g.config.fp16 model optimizer criterion).model
          (ampStage heap g.config.fp16 model optimizer criterion).optimizer).model
      with ⟨⟨m3, cfg, trR⟩, hok⟩ | hbad
    · simp only [initializeEngine, hguard', Bool.false_eq_true, if_false, hok]
      split_ifs <;> exact h2.trans h1
    · simp only [initializeEngine, hguard', Bool.false_eq_true, if_false, hbad]
      exact h2.trans h1

/-- Claim C9: the assembler never mutates the shared configuration: the fp16
and zero sub-sections are copied before their dispatch keys (`mode`, `level`)
are popped, so after the call returns or raises the configuration still holds
`fp16.mode` and `zero.level` with their original values (for sections behind
valid references). -/
theorem c9_config_not_mutated
    (g : GPC) (heap : Heap) (model : Model) (optimizer : Optimizer)
    (criterion : Criterion) (td vd : Option DataLoader) (sched : Option LRScheduler) :
    (∀ rf, g.config.fp16 = some rf → rf < heap.next →
      dictGet (Heap.get
        (initializeEngine g heap model optimizer criterion td vd sched).heap rf) "mode"
        = dictGet (Heap.get heap rf) "mode")
    ∧ (∀ rz, g.config.zero = some rz → rz < heap.next →
      dictGet (Heap.get
        (initializeEngine g heap model optimizer criterion td vd sched).heap rz) "level"
        = dictGet (Heap.get heap rz) "level") := by
  constructor <;> intro r _ hr <;>
    rw [heap_get_preserved g heap model optimizer criterion td vd sched r hr]

/-- Witness for C9 at a concrete input where the zero converter runs (fp16
mode null, zero level 2): both dispatch keys keep their original values in the
final heap. -/
theorem c9_witness :
    dictGet (Heap.get (initializeEngine gpcC1 heapNullModeZero (Model.base 0)
      (Optimizer.base 0) (Criterion.base 0) none none none).heap 0) "mode"
      = some PyVal.pyNone
    ∧ dictGet (Heap.get (initializeEngine gpcC1 heapNullModeZero (Model.base 0)
        (Optimizer.base 0) (Criterion.base 0) none none none).heap 1) "level"
      = some (PyVal.nat 2) :=
  ⟨((c9_config_not_mutated gpcC1 heapNullModeZero (Model.base 0) (Optimizer.base 0)
      (Criterion.base 0) none none none).1 0 rfl (by decide)).trans rfl,
    ((c9_config_not_mutated gpcC1 heapNullModeZero (Model.base 0) (Optimizer.base 0)
      (Criterion.base 0) none none none).2 1 rfl (by decide)).trans rfl⟩

theorem resolve_ok_of_ne (g : GPC) (ghc : GradHandlerCfg) (o : Optimizer)
    (a : PyVal) (m : Model) (h : ghc ≠ GradHandlerCfg.notAList) :
    ∃ x, resolveGradientHandlerCfg g ghc o a m = Except.ok x := by
  cases ghc with
  | absent =>
      simp only [resolveGradientHandlerCfg]
      split_ifs <;> exact ⟨_, rfl⟩
  | specs l => exact ⟨_, rfl⟩
  | notAList => exact absurd rfl h

/-- Claim C10: when clip_grad_norm is absent or not positive, the assembler
performs no clip-norm rejection at all — no `ConfigException` comes from the
clip check even with a zero section or naive fp16 configured — and, provided
the fp16/zero mutual-exclusion check and the handler-list type check pass, the
engine is constructed with a clip-norm threshold equal to the configured
value, defaulting to 0 when the key is absent. -/
theorem c10_nonpositive_clip_passes
    (g : GPC) (heap : Heap) (model : Model) (optimizer : Optimizer)
    (criterion : Criterion) (td vd : Option DataLoader) (sched : Option LRScheduler)
    (hclip : g.config.clip_grad_norm = none
      ∨ ∃ q, g.config.clip_grad_norm = some q ∧ q ≤ 0)
    (hmx : ¬(fp16ModeSet heap g.config.fp16 = true ∧ (g.config.zero).isSome = true))
    (hgh : g.config.gradient_handler ≠ GradHandlerCfg.notAList) :
    ∃ er, (initializeEngine g heap model optimizer criterion td vd sched).result
        = Except.ok er
      ∧ er.engine.clip_grad_norm = (g.config.clip_grad_norm).getD 0 := by
  have hncl : ¬ 0 < (g.config.clip_grad_norm).getD 0 := by
    rcases hclip with h | ⟨q, hq, hq0⟩
    · rw [h]
      exact lt_irrefl 0
    · rw [hq]
      exact not_lt.mpr hq0
  have hguard' : (fp16ModeSet heap g.config.fp16 && (g.config.zero).isSome)
      = false := by
    cases h2 : (fp16ModeSet heap g.config.fp16 && (g.config.zero).isSome) with
    | false => rfl
    | true => exact absurd (Bool.and_eq_true_iff.mp h2) hmx
  obtain ⟨⟨m3, cfg, trR⟩, hok⟩ := resolve_ok_of_ne g g.config.gradient_handler
    (zeroStage (ampStage heap g.config.fp16 model optimizer criterion).heap
      g.config.zero
      (ampStage heap g.config.fp16 model optimizer criterion).model
      (ampStage heap g.config.fp16 model optimizer criterion).optimizer).optimizer
    (ampStage heap g.config.fp16 model optimizer criterion).amp_mode
    (zeroStage (ampStage heap g.config.fp16 model optimizer criterion).heap
      g.config.zero
      (ampStage heap g.config.fp16 model optimizer criterion).model
      (ampStage heap g.config.fp16 model optimizer criterion).optimizer).model
    hgh
  simp only [initializeEngine, hguard', Bool.false_eq_true, if_false, hok]
  rw [if_neg hncl]
  exact ⟨_, rfl, rfl⟩

/-- Witness for C10 at a concrete input: zero level 2 configured with no
clip_grad_norm key — the engine is built with threshold 0. -/
theorem c10_witness :
    ∃ er, (initializeEngine gpcZeroOnly heapZero2 (Model.base 0) (Optimizer.base 0)
        (Criterion.base 0) none none none).result = Except.ok er
      ∧ er.engine.clip_grad_norm = (gpcZeroOnly.config.clip_grad_norm).getD 0 :=
  c10_nonpositive_clip_passes gpcZeroOnly heapZero2 (Model.base 0) (Optimizer.base 0)
    (Criterion.base 0) none none none (Or.inl rfl) (by decide) (by decide)

end ColossalAI
